import Mathlib

/-
Verification of the frame-publishing core of `ui/web_gui.py`
(smart-social-distancing): the `WebGUI` class with its `update`
(producer publish), `_generate` (MJPEG stream loop) and `video_feed`
route.  Frames live in an explicit heap of numpy-array cells so that
Python's reference/copy semantics (`input_frame.copy()`, in-place
drawing) are visible; the lock discipline of `update` and `_generate`
is modelled as an event trace annotated with the lock state.
-/

namespace SmartSocialDistancing

/-- Content of one numpy image array.  A frame is either a raw pixel
buffer or the result of drawing on a frame: `annotated` records a call
to the box-drawing routine, `captioned` a call to the text-drawing
routine.  Drawing is modelled structurally because the drawing
routines live outside the verified source. -/
inductive FrameData where
  | raw (pixels : List Nat)
  | annotated (boxes classes scores colors : List Nat) (image : FrameData)
  | captioned (txt : String) (origin : Nat × Nat) (image : FrameData)
  deriving Repr, DecidableEq

/-- Number of drawing layers on top of the raw buffer. -/
def FrameData.depth : FrameData → Nat
  | .raw _ => 0
  | .annotated _ _ _ _ f => f.depth + 1
  | .captioned _ _ f => f.depth + 1

/-- Size of the underlying pixel buffer. -/
def FrameData.pixelCount : FrameData → Nat
  | .raw px => px.length
  | .annotated _ _ _ _ f => f.pixelCount
  | .captioned _ _ f => f.pixelCount

/-- ASCII bytes of a string (the byte literals of `_generate`). -/
def asciiBytes (s : String) : List Nat :=
  s.toList.map Char.toNat

/-- Flat byte rendering of a frame, used as the body of its JPEG
encoding in the model. -/
def FrameData.serialize : FrameData → List Nat
  | .raw px => 0 :: px
  | .annotated bs cs ss col f => 1 :: (bs ++ cs ++ ss ++ col) ++ f.serialize
  | .captioned txt o f => 2 :: asciiBytes txt ++ [o.1, o.2] ++ f.serialize

/-- Heap of numpy arrays: Python array objects are mutable cells
identified by a reference.  `next` is the next fresh reference. -/
structure Heap where
  mem : Nat → FrameData
  next : Nat

/-- Read the array behind a reference. -/
def Heap.read (h : Heap) (r : Nat) : FrameData :=
  h.mem r

/-- Mutate the array behind a reference in place. -/
def Heap.write (h : Heap) (r : Nat) (v : FrameData) : Heap :=
  ⟨fun x => if x = r then v else h.mem x, h.next⟩

/-- Allocate a fresh array holding `v` (the effect of `.copy()`),
returning the new heap and the fresh reference. -/
def Heap.alloc (h : Heap) (v : FrameData) : Heap × Nat :=
  (⟨fun x => if x = h.next then v else h.mem x, h.next + 1⟩, h.next)

/-- The configuration fields `WebGUI` reads (`App`/`Host`, `App`/`Port`,
`Detector`/`DistThreshold`, `Detector`/`ClassID`, `App`/`VideoPath`). -/
structure Config where
  host : String
  port : Nat
  dist_threshold : Nat
  class_id : Nat
  video_path : String
  deriving Repr, DecidableEq

/-- The detector attribute of the engine: reading `fps` either yields a
value or raises (`Except.error` models the exception caught by
`update`). -/
structure Detector where
  fps : Except Unit Nat
  deriving Repr

/-- The engine instance handed to `WebGUI.__init__`. -/
structure Engine where
  detector : Detector
  deriving Repr

/-- The visualization descriptor built by `visualization_preparation`. -/
structure OutputDict where
  detection_boxes : List Nat
  detection_classes : List Nat
  detection_scores : List Nat
  detection_colors : List Nat
  detection_masks : Option (List Nat)
  deriving Repr, DecidableEq

/-- Modelled from the spec: `vis_util.visualization_preparation`
(in `ui/utils/visualization_utils.py`, not under the verified source)
builds the visualization descriptor — bounding boxes, classes, scores
and colors — from the raw detections, the distance matrix and the
distance threshold.  Its internal computation is unspecified, so it is
modelled as deriving the box fields from `nn_out` and the colors from
`distances` and the threshold; no mask field is produced. -/
def visualization_preparation (nn_out : List Nat) (distances : List (List Nat))
    (dist_threshold : Nat) : OutputDict :=
  { detection_boxes := nn_out
    detection_classes := nn_out
    detection_scores := nn_out
    detection_colors := (distances.map List.length) ++ [dist_threshold]
    detection_masks := none }

/-- Modelled from the spec: `vis_util.visualize_boxes_and_labels_on_image_array`
(not under the verified source) draws the boxes, labels and colors of
the descriptor onto the image array in place; the pixel-level effect is
unspecified, so drawing is modelled as stacking an `annotated` layer on
the frame. -/
def visualize_boxes_and_labels_on_image_array (image : FrameData)
    (boxes classes scores colors : List Nat)
    (category_index : List (Nat × String)) (instance_masks : Option (List Nat))
    (use_normalized_coordinates : Bool) (line_thickness : Nat) : FrameData :=
  FrameData.annotated boxes classes scores colors image

/-- Modelled from the spec: `vis_util.text_putter` (not under the
verified source) draws the caption text at the given pixel origin onto
the image array in place; modelled as stacking a `captioned` layer. -/
def text_putter (image : FrameData) (txt : String) (origin : Nat × Nat) : FrameData :=
  FrameData.captioned txt origin image

/-- Modelled from the spec: `cv.imencode` (OpenCV, external) encodes a
frame to JPEG bytes, returning a success flag and the bytes; encoding
fails for a zero-size image, modelled as failing exactly when the pixel
buffer is empty. -/
def imencode (ext : String) (img : FrameData) : Bool × List Nat :=
  if img.pixelCount = 0 then (false, [])
  else (true, asciiBytes ext ++ img.serialize)

/-- Python `str` on the value stored under the `fps` key (`str(None)`
is the text `None`). -/
def pyStr : Option Nat → String
  | none => "None"
  | some n => toString n

/-- Assignment `d[k] = v` on the `_displayed_items` dictionary. -/
def dictSet (d : List (String × Option Nat)) (k : String) (v : Option Nat) :
    List (String × Option Nat) :=
  match d with
  | [] => [(k, v)]
  | (k', v') :: rest => if k' = k then (k, v) :: rest else (k', v') :: dictSet rest k v

/-- Lookup `d[k]` on the `_displayed_items` dictionary (`none` when the
key is absent). -/
def dictGet (d : List (String × Option Nat)) (k : String) : Option (Option Nat) :=
  match d with
  | [] => none
  | (k', v') :: rest => if k' = k then some v' else dictGet rest k

/-- Result of the `try`/`except` block of `update`: the value of
`self.__ENGINE_INSTANCE.detector.fps`, or `None` when reading the
attribute raises. -/
def fpsTry (e : Engine) : Option Nat :=
  match e.detector.fps with
  | Except.ok v => some v
  | Except.error _ => none

/-- The `WebGUI` object state: the fields set by `__init__` and touched
by `update` and `_generate`.  `output_frame` holds a reference into the
heap (the `_output_frame` attribute), `none` before the first publish. -/
structure WebGUI where
  config : Config
  engine : Engine
  output_frame : Option Nat
  host : String
  port : Nat
  dist_threshold : Nat
  displayed_items : List (String × Option Nat)

/-- `WebGUI.__init__`: stores config and engine, sets `_output_frame`
to `None`, caches host, port and distance threshold from the config,
and starts with an empty `_displayed_items` dictionary. -/
def WebGUI.init (config : Config) (engine_instance : Engine) : WebGUI :=
  { config := config
    engine := engine_instance
    output_frame := none
    host := config.host
    port := config.port
    dist_threshold := config.dist_threshold
    displayed_items := [] }

/-- `WebGUI.update`: prepares the visualization descriptor, draws boxes
and the fps caption in place on the caller's `input_frame` array, then
(under the lock) stores a copy of `input_frame` into `_output_frame`.
Returns the heap after the in-place drawing and the copy, and the
updated object state. -/
def WebGUI.update (h : Heap) (g : WebGUI) (input_frame : Nat)
    (nn_out : List Nat) (distances : List (List Nat)) : Heap × WebGUI :=
  let output_dict := visualization_preparation nn_out distances g.dist_threshold
  let class_id := g.config.class_id
  let category_index : List (Nat × String) := [(class_id, "Pedestrian")]
  let h := h.write input_frame
    (visualize_boxes_and_labels_on_image_array (h.read input_frame)
      output_dict.detection_boxes output_dict.detection_classes
      output_dict.detection_scores output_dict.detection_colors
      category_index output_dict.detection_masks true 3)
  let fps_item : Option Nat := fpsTry g.engine
  let displayed_items := dictSet g.displayed_items "fps" fps_item
  let txt := "Frames rate = " ++ pyStr ((dictGet displayed_items "fps").getD none) ++ "(fps)"
  let origin : Nat × Nat := (10, 470)
  let h := h.write input_frame (text_putter (h.read input_frame) txt origin)
  let copied := h.alloc (h.read input_frame)
  (copied.1, { g with displayed_items := displayed_items, output_frame := some copied.2 })

/-- The FrameStore read: the current `_output_frame` content, or the
absent marker when no frame has ever been published. -/
def WebGUI.snapshot (h : Heap) (g : WebGUI) : Option FrameData :=
  g.output_frame.map h.read

/-- One pass of the `while True` loop of `_generate`: `none` means the
pass yields no chunk and the loop continues (the `continue` branches
for a missing frame and for a failed encode); `some c` means the pass
yields the chunk `c`.  The loop itself never terminates. -/
def generateStep (h : Heap) (g : WebGUI) : Option (List Nat) :=
  match g.output_frame with
  | none => none
  | some r =>
    let enc := imencode ".jpeg" (h.read r)
    if enc.1 then
      some (asciiBytes "--frame\r\nContent-Type: image/jpeg\r\n\r\n" ++ enc.2 ++ asciiBytes "\r\n")
    else none

/-- Chunks yielded by `fuel` successive passes of the `_generate` loop
over an unchanged store. -/
def generateChunks (h : Heap) (g : WebGUI) : Nat → List (List Nat)
  | 0 => []
  | n + 1 =>
    match generateStep h g with
    | none => generateChunks h g n
    | some c => c :: generateChunks h g n

/-- The Flask response object, reduced to the field the route sets. -/
structure Response where
  mimetype : String
  deriving Repr, DecidableEq

/-- The `/video_feed` route: wraps `_generate` in a `Response` with the
multipart mimetype. -/
def video_feed : Response :=
  { mimetype := "multipart/x-mixed-replace; boundary=frame" }

/-- Events of the lock discipline: acquiring and releasing
`self._lock`, the JPEG encode, copying the input frame, assigning
`_output_frame`, drawing, and yielding a chunk to the transport. -/
inductive Ev where
  | lockAcquire
  | lockRelease
  | encodeJpeg
  | copyFrame
  | storeWrite
  | drawBoxes
  | drawText
  | yieldChunk
  deriving Repr, DecidableEq

/-- Annotate every event with whether the lock is held while it runs
(the acquire and release events themselves are the boundary and are
annotated as not-held). -/
def withLock : List Ev → Bool → List (Ev × Bool)
  | [], _ => []
  | Ev.lockAcquire :: tr, _ => (Ev.lockAcquire, false) :: withLock tr true
  | Ev.lockRelease :: tr, _ => (Ev.lockRelease, false) :: withLock tr false
  | e :: tr, b => (e, b) :: withLock tr b

/-- The events performed while the lock is held. -/
def lockedEvents (tr : List Ev) : List Ev :=
  ((withLock tr false).filter (fun p => p.2)).map Prod.fst

/-- Event trace of one pass of the `_generate` loop: the lock is taken,
the frame check and the JPEG encode happen inside the `with` block, and
the `yield` (when reached) happens after the block exits. -/
def generateTrace (h : Heap) (g : WebGUI) : List Ev :=
  match g.output_frame with
  | none => [Ev.lockAcquire, Ev.lockRelease]
  | some r =>
    if (imencode ".jpeg" (h.read r)).1 then
      [Ev.lockAcquire, Ev.encodeJpeg, Ev.lockRelease, Ev.yieldChunk]
    else
      [Ev.lockAcquire, Ev.encodeJpeg, Ev.lockRelease]

/-- Event trace of one call to `update`: all drawing happens before the
lock is taken; the critical section is exactly the copy of the input
frame and the assignment to `_output_frame`. -/
def updateTrace : List Ev :=
  [Ev.drawBoxes, Ev.drawText, Ev.lockAcquire, Ev.copyFrame, Ev.storeWrite, Ev.lockRelease]

/-- The arguments of one `update` call. -/
structure PublishReq where
  input_frame : Nat
  nn_out : List Nat
  distances : List (List Nat)

/-- Run a sequence of `update` calls with no intervening reads. -/
def runUpdates (s : Heap × WebGUI) : List PublishReq → Heap × WebGUI
  | [] => s
  | r :: rs => runUpdates (WebGUI.update s.1 s.2 r.input_frame r.nn_out r.distances) rs

/-- The annotated frame a given `update` call publishes: the caller's
input array with the box layer and the fps caption drawn on it. -/
def annotatedFrame (h : Heap) (g : WebGUI) (r : PublishReq) : FrameData :=
  let output_dict := visualization_preparation r.nn_out r.distances g.dist_threshold
  let fps_item : Option Nat := fpsTry g.engine
  text_putter
    (visualize_boxes_and_labels_on_image_array (h.read r.input_frame)
      output_dict.detection_boxes output_dict.detection_classes
      output_dict.detection_scores output_dict.detection_colors
      [(g.config.class_id, "Pedestrian")] output_dict.detection_masks true 3)
    ("Frames rate = " ++ pyStr fps_item ++ "(fps)") (10, 470)

/-- A concrete configuration for evaluating the model. -/
def cfgA : Config := ⟨"0.0.0.0", 8000, 1, 0, "video.mp4"⟩

/-- An engine whose detector implements `fps`. -/
def engA : Engine := ⟨⟨Except.ok 24⟩⟩

/-- An engine whose detector raises when `fps` is read. -/
def engErr : Engine := ⟨⟨Except.error ()⟩⟩

/-- A freshly constructed `WebGUI` (no publish yet). -/
def guiA : WebGUI := WebGUI.init cfgA engA

/-- A freshly constructed `WebGUI` over the raising engine. -/
def guiE : WebGUI := WebGUI.init cfgA engErr

/-- A heap whose array `0` is a small non-empty frame. -/
def heapA : Heap := ⟨fun _ => FrameData.raw [7, 7], 1⟩

/-- A heap whose array `0` is a zero-size frame (encode fails on it). -/
def heapZ : Heap := ⟨fun _ => FrameData.raw [], 1⟩

/-- `guiA` after `_output_frame` has been pointed at array `0`. -/
def guiB : WebGUI := { guiA with output_frame := some 0 }

/-- The chunk `_generate` yields for the store `heapA`, `guiB`. -/
def chunkB : List Nat := (generateStep heapA guiB).getD []

theorem Heap.read_write_same (h : Heap) (r : Nat) (v : FrameData) :
    (h.write r v).read r = v := by
  simp [Heap.read, Heap.write]

theorem Heap.read_write_ne (h : Heap) (r r' : Nat) (v : FrameData) (hne : r' ≠ r) :
    (h.write r v).read r' = h.read r' := by
  simp [Heap.read, Heap.write, hne]

theorem dictGet_dictSet (d : List (String × Option Nat)) (k : String) (v : Option Nat) :
    dictGet (dictSet d k v) k = some v := by
  induction d with
  | nil => simp [dictSet, dictGet]
  | cons p rest ih =>
    obtain ⟨k', v'⟩ := p
    by_cases hk : k' = k
    · simp [dictSet, dictGet, hk]
    · simp [dictSet, dictGet, hk, ih]

theorem update_output_frame (h : Heap) (g : WebGUI) (i : Nat) (nn : List Nat)
    (d : List (List Nat)) :
    (WebGUI.update h g i nn d).2.output_frame = some h.next := rfl

theorem update_displayed_items (h : Heap) (g : WebGUI) (i : Nat) (nn : List Nat)
    (d : List (List Nat)) :
    (WebGUI.update h g i nn d).2.displayed_items
      = dictSet g.displayed_items "fps" (fpsTry g.engine) := rfl

theorem update_read_stored (h : Heap) (g : WebGUI) (i : Nat) (nn : List Nat)
    (d : List (List Nat)) :
    (WebGUI.update h g i nn d).1.read h.next = annotatedFrame h g ⟨i, nn, d⟩ := by
  simp [WebGUI.update, annotatedFrame, Heap.read, Heap.write, Heap.alloc, dictGet_dictSet]

theorem update_read_input (h : Heap) (g : WebGUI) (i : Nat) (nn : List Nat)
    (d : List (List Nat)) :
    (WebGUI.update h g i nn d).1.read i = annotatedFrame h g ⟨i, nn, d⟩ := by
  by_cases hc : i = h.next
  · subst hc
    exact update_read_stored h g h.next nn d
  · simp [WebGUI.update, annotatedFrame, Heap.read, Heap.write, Heap.alloc,
      dictGet_dictSet, hc]

theorem update_snapshot (h : Heap) (g : WebGUI) (r : PublishReq) :
    WebGUI.snapshot (WebGUI.update h g r.input_frame r.nn_out r.distances).1
        (WebGUI.update h g r.input_frame r.nn_out r.distances).2
      = some (annotatedFrame h g r) := by
  have hout := update_output_frame h g r.input_frame r.nn_out r.distances
  have hread := update_read_stored h g r.input_frame r.nn_out r.distances
  simp [WebGUI.snapshot, hout, hread]

theorem generateTrace_none (h : Heap) (g : WebGUI) (hg : g.output_frame = none) :
    generateTrace h g = [Ev.lockAcquire, Ev.lockRelease] := by
  simp [generateTrace, hg]

theorem generateTrace_some_true (h : Heap) (g : WebGUI) (r : Nat)
    (hr : g.output_frame = some r) (hf : (imencode ".jpeg" (h.read r)).1 = true) :
    generateTrace h g
      = [Ev.lockAcquire, Ev.encodeJpeg, Ev.lockRelease, Ev.yieldChunk] := by
  simp [generateTrace, hr, hf]

theorem generateTrace_some_false (h : Heap) (g : WebGUI) (r : Nat)
    (hr : g.output_frame = some r) (hf : (imencode ".jpeg" (h.read r)).1 = false) :
    generateTrace h g = [Ev.lockAcquire, Ev.encodeJpeg, Ev.lockRelease] := by
  simp [generateTrace, hr, hf]

/-- C1: Latest-wins replacement — after any sequence of `update` calls
ending in an Nth call and with no intervening reads, the stored
`_output_frame` is exactly the copy of the Nth annotated input frame
(the frame published by the last call), never an earlier one; each
publish unconditionally replaces the previous value. -/
theorem latest_wins (s : Heap × WebGUI) (reqs : List PublishReq) (r : PublishReq) :
    WebGUI.snapshot (runUpdates s (reqs ++ [r])).1 (runUpdates s (reqs ++ [r])).2
      = some (annotatedFrame (runUpdates s reqs).1 (runUpdates s reqs).2 r) := by
  induction reqs generalizing s with
  | nil =>
    simpa [runUpdates] using update_snapshot s.1 s.2 r
  | cons q reqs ih =>
    simpa [runUpdates] using
      ih (WebGUI.update s.1 s.2 q.input_frame q.nn_out q.distances)

/-- C3: Absent-before-first-publish — `__init__` sets `_output_frame`
to the absent marker, and any `_generate` pass that finds the store
absent yields no chunk and keeps looping (no chunk is produced over any
number of passes), rather than terminating or surfacing an error. -/
theorem absent_before_first_publish :
    (∀ cfg eng, (WebGUI.init cfg eng).output_frame = none)
    ∧ ∀ (h : Heap) (g : WebGUI), g.output_frame = none →
        generateStep h g = none ∧ ∀ fuel, generateChunks h g fuel = [] := by
  refine ⟨fun cfg eng => rfl, fun h g hg => ?_⟩
  have hs : generateStep h g = none := by simp [generateStep, hg]
  refine ⟨hs, fun fuel => ?_⟩
  induction fuel with
  | zero => rfl
  | succ n ih => simp [generateChunks, hs, ih]

/-- C3 witness: a freshly initialized `WebGUI` holds the absent marker
and the stream loop yields no chunk on it. -/
theorem absent_before_first_publish_witness :
    (WebGUI.init cfgA engA).output_frame = none
    ∧ generateStep heapA guiA = none ∧ generateChunks heapA guiA 3 = [] :=
  ⟨absent_before_first_publish.1 cfgA engA,
   (absent_before_first_publish.2 heapA guiA rfl).1,
   (absent_before_first_publish.2 heapA guiA rfl).2 3⟩

/-- C4: Transient encode failure is recoverable — when the JPEG encode
of the current frame fails, the `_generate` pass yields nothing, the
trace shows the loop continuing past the failed encode, and no chunk is
produced over any number of passes; the loop never terminates on encode
failure. -/
theorem encode_failure_recoverable (h : Heap) (g : WebGUI) (r : Nat)
    (hr : g.output_frame = some r)
    (hfail : (imencode ".jpeg" (h.read r)).1 = false) :
    generateStep h g = none
    ∧ generateTrace h g = [Ev.lockAcquire, Ev.encodeJpeg, Ev.lockRelease]
    ∧ ∀ fuel, generateChunks h g fuel = [] := by
  have hs : generateStep h g = none := by simp [generateStep, hr, hfail]
  refine ⟨hs, by simp [generateTrace, hr, hfail], fun fuel => ?_⟩
  induction fuel with
  | zero => rfl
  | succ n ih => simp [generateChunks, hs, ih]

/-- C4 witness: on a zero-size frame the encode flag is false, the pass
yields nothing and the loop continues. -/
theorem encode_failure_recoverable_witness :
    (imencode ".jpeg" (heapZ.read 0)).1 = false
    ∧ generateStep heapZ guiB = none
    ∧ generateTrace heapZ guiB = [Ev.lockAcquire, Ev.encodeJpeg, Ev.lockRelease]
    ∧ generateChunks heapZ guiB 4 = [] :=
  ⟨by decide,
   (encode_failure_recoverable heapZ guiB 0 rfl (by decide)).1,
   (encode_failure_recoverable heapZ guiB 0 rfl (by decide)).2.1,
   (encode_failure_recoverable heapZ guiB 0 rfl (by decide)).2.2 4⟩

/-- C5: Chunk wire format — every chunk yielded by `_generate` is
exactly the boundary-and-header bytes, then the JPEG encoding of the
snapshotted frame, then CRLF; and the `/video_feed` response is
declared with the multipart mimetype with boundary token `frame`. -/
theorem chunk_wire_format :
    (∀ (h : Heap) (g : WebGUI) (r : Nat) (c : List Nat),
        g.output_frame = some r → generateStep h g = some c →
        c = asciiBytes "--frame\r\nContent-Type: image/jpeg\r\n\r\n"
              ++ (imencode ".jpeg" (h.read r)).2 ++ asciiBytes "\r\n")
    ∧ video_feed.mimetype = "multipart/x-mixed-replace; boundary=frame" := by
  refine ⟨fun h g r c hr hc => ?_, rfl⟩
  rw [generateStep, hr] at hc
  cases hf : (imencode ".jpeg" (h.read r)).1 with
  | false => simp [hf] at hc
  | true =>
    simp only [hf, if_true] at hc
    simp at hc
    exact hc.symm

/-- C5 witness: the concrete chunk served from `heapA`, `guiB` has
exactly the boundary, header, JPEG bytes and trailing CRLF. -/
theorem chunk_wire_format_witness :
    chunkB = asciiBytes "--frame\r\nContent-Type: image/jpeg\r\n\r\n"
        ++ (imencode ".jpeg" (heapA.read 0)).2 ++ asciiBytes "\r\n" :=
  chunk_wire_format.1 heapA guiB 0 chunkB rfl rfl

/-- C6: Telemetry failure never aborts publication — when reading the
detector's `fps` attribute raises, `update` stores the explicit unknown
value `None` under the `fps` key and the publish still completes: the
annotated frame is stored into `_output_frame`. -/
theorem telemetry_failure_still_publishes (h : Heap) (g : WebGUI) (i : Nat)
    (nn : List Nat) (d : List (List Nat))
    (hf : g.engine.detector.fps = Except.error ()) :
    dictGet (WebGUI.update h g i nn d).2.displayed_items "fps" = some none
    ∧ WebGUI.snapshot (WebGUI.update h g i nn d).1 (WebGUI.update h g i nn d).2
        = some (annotatedFrame h g ⟨i, nn, d⟩) := by
  constructor
  · have hfi : fpsTry g.engine = none := by simp [fpsTry, hf]
    rw [update_displayed_items, hfi, dictGet_dictSet]
  · exact update_snapshot h g ⟨i, nn, d⟩

/-- C6 witness: over an engine whose detector raises on `fps`, a
publish stores `fps ↦ None` and still publishes the annotated frame. -/
theorem telemetry_failure_still_publishes_witness :
    dictGet (WebGUI.update heapA guiE 0 [] []).2.displayed_items "fps" = some none
    ∧ WebGUI.snapshot (WebGUI.update heapA guiE 0 [] []).1
        (WebGUI.update heapA guiE 0 [] []).2
      = some (annotatedFrame heapA guiE ⟨0, [], []⟩) :=
  telemetry_failure_still_publishes heapA guiE 0 [] [] rfl

/-- C7: Copy-on-publish — `update` stores a copy of the input frame
taken at publish time, so mutating the caller's array after `update`
returns changes neither the snapshot nor the chunk subsequently served
to readers. -/
theorem copy_on_publish (h : Heap) (g : WebGUI) (i : Nat) (nn : List Nat)
    (d : List (List Nat)) (hvalid : i < h.next) (v : FrameData) :
    WebGUI.snapshot ((WebGUI.update h g i nn d).1.write i v)
        (WebGUI.update h g i nn d).2
      = WebGUI.snapshot (WebGUI.update h g i nn d).1 (WebGUI.update h g i nn d).2
    ∧ generateStep ((WebGUI.update h g i nn d).1.write i v)
        (WebGUI.update h g i nn d).2
      = generateStep (WebGUI.update h g i nn d).1 (WebGUI.update h g i nn d).2 := by
  have hne : h.next ≠ i := by omega
  have hread : ((WebGUI.update h g i nn d).1.write i v).read h.next
      = (WebGUI.update h g i nn d).1.read h.next :=
    Heap.read_write_ne _ _ _ _ hne
  have hout := update_output_frame h g i nn d
  exact ⟨by simp [WebGUI.snapshot, hout, hread],
         by simp [generateStep, hout, hread]⟩

/-- C7 witness: after a concrete publish, overwriting the caller's
array leaves the snapshot and the served chunk unchanged. -/
theorem copy_on_publish_witness :
    0 < heapA.next
    ∧ WebGUI.snapshot ((WebGUI.update heapA guiA 0 [] []).1.write 0 (FrameData.raw [9]))
        (WebGUI.update heapA guiA 0 [] []).2
      = WebGUI.snapshot (WebGUI.update heapA guiA 0 [] []).1
          (WebGUI.update heapA guiA 0 [] []).2
    ∧ generateStep ((WebGUI.update heapA guiA 0 [] []).1.write 0 (FrameData.raw [9]))
        (WebGUI.update heapA guiA 0 [] []).2
      = generateStep (WebGUI.update heapA guiA 0 [] []).1
          (WebGUI.update heapA guiA 0 [] []).2 :=
  ⟨by decide,
   (copy_on_publish heapA guiA 0 [] [] (by decide) (FrameData.raw [9])).1,
   (copy_on_publish heapA guiA 0 [] [] (by decide) (FrameData.raw [9])).2⟩

/-- C8: No lock held during the client write — in every `_generate`
pass, no yield event is performed while the FrameStore lock is held
(the lock is released before the chunk is handed to the transport). -/
theorem no_lock_during_yield (h : Heap) (g : WebGUI) :
    ((withLock (generateTrace h g) false).filter
        (fun p => p.1 == Ev.yieldChunk && p.2)) = [] := by
  cases hg : g.output_frame with
  | none => rw [generateTrace_none h g hg]; rfl
  | some r =>
    cases hf : (imencode ".jpeg" (h.read r)).1 with
    | false => rw [generateTrace_some_false h g r hg hf]; rfl
    | true => rw [generateTrace_some_true h g r hg hf]; rfl

/-- C9: Publish mutates its argument in place — `update` draws the box
layer and the fps caption directly onto the caller's input array before
copying it into the store, so after `update` the caller's array holds
the annotated frame and differs from its previous content. -/
theorem update_mutates_input (h : Heap) (g : WebGUI) (i : Nat) (nn : List Nat)
    (d : List (List Nat)) :
    (WebGUI.update h g i nn d).1.read i = annotatedFrame h g ⟨i, nn, d⟩
    ∧ (WebGUI.update h g i nn d).1.read i ≠ h.read i := by
  refine ⟨update_read_input h g i nn d, ?_⟩
  rw [update_read_input h g i nn d]
  intro heq
  have hd := congrArg FrameData.depth heq
  have hda : (annotatedFrame h g ⟨i, nn, d⟩).depth = (h.read i).depth + 2 := rfl
  rw [hda] at hd
  omega

/-- C10: Caption format including unknown telemetry — the caption drawn
at pixel origin `(10, 470)` is exactly the concatenation of the text
`Frames rate = `, the rendering of the fps value, and `(fps)`; when the
fps read raises, that caption is the literal `Frames rate = None(fps)`. -/
theorem caption_format (h : Heap) (g : WebGUI) (i : Nat) (nn : List Nat)
    (d : List (List Nat)) :
    (WebGUI.update h g i nn d).1.read i
      = FrameData.captioned ("Frames rate = " ++ pyStr (fpsTry g.engine) ++ "(fps)")
          (10, 470)
          (visualize_boxes_and_labels_on_image_array (h.read i)
            (visualization_preparation nn d g.dist_threshold).detection_boxes
            (visualization_preparation nn d g.dist_threshold).detection_classes
            (visualization_preparation nn d g.dist_threshold).detection_scores
            (visualization_preparation nn d g.dist_threshold).detection_colors
            [(g.config.class_id, "Pedestrian")]
            (visualization_preparation nn d g.dist_threshold).detection_masks true 3)
    ∧ (g.engine.detector.fps = Except.error () →
        "Frames rate = " ++ pyStr (fpsTry g.engine) ++ "(fps)"
          = "Frames rate = None(fps)") := by
  constructor
  · exact update_read_input h g i nn d
  · intro hf
    simp [fpsTry, hf, pyStr]

/-- C10 witness: a publish over the raising engine renders the literal
caption text `Frames rate = None(fps)` at origin `(10, 470)`. -/
theorem caption_format_witness :
    (WebGUI.update heapA guiE 0 [] []).1.read 0
      = FrameData.captioned
          ("Frames rate = " ++ pyStr (fpsTry guiE.engine) ++ "(fps)") (10, 470)
          (visualize_boxes_and_labels_on_image_array (heapA.read 0)
            (visualization_preparation [] [] guiE.dist_threshold).detection_boxes
            (visualization_preparation [] [] guiE.dist_threshold).detection_classes
            (visualization_preparation [] [] guiE.dist_threshold).detection_scores
            (visualization_preparation [] [] guiE.dist_threshold).detection_colors
            [(guiE.config.class_id, "Pedestrian")]
            (visualization_preparation [] [] guiE.dist_threshold).detection_masks true 3)
    ∧ "Frames rate = " ++ pyStr (fpsTry guiE.engine) ++ "(fps)"
        = "Frames rate = None(fps)" :=
  ⟨(caption_format heapA guiE 0 [] []).1,
   (caption_format heapA guiE 0 [] []).2 rfl⟩

/-- C2 counterexample: in the concrete state `heapA`, `guiB` the
`_generate` pass performs its JPEG encode while the FrameStore lock is
held, refuting the claim that no JPEG encode is ever performed under
the lock. -/
theorem encode_performed_under_lock :
    Ev.encodeJpeg ∈ lockedEvents (generateTrace heapA guiB) := by decide

/-- C2 amended: the publish operation's lock-guarded critical section
is only the frame copy and the store assignment — it performs no JPEG
encode — but every `_generate` pass that finds a frame performs its
JPEG encode while holding the FrameStore lock. -/
theorem producer_critical_section :
    lockedEvents updateTrace = [Ev.copyFrame, Ev.storeWrite]
    ∧ Ev.encodeJpeg ∉ lockedEvents updateTrace
    ∧ ∀ (h : Heap) (g : WebGUI) (r : Nat), g.output_frame = some r →
        lockedEvents (generateTrace h g) = [Ev.encodeJpeg] := by
  refine ⟨by decide, by decide, fun h g r hr => ?_⟩
  cases hf : (imencode ".jpeg" (h.read r)).1 with
  | false => rw [generateTrace_some_false h g r hr hf]; rfl
  | true => rw [generateTrace_some_true h g r hr hf]; rfl

/-- C2 amended witness: in the concrete state `heapA`, `guiB` the only
event under the lock during a `_generate` pass is the JPEG encode. -/
theorem producer_critical_section_witness :
    lockedEvents (generateTrace heapA guiB) = [Ev.encodeJpeg] :=
  producer_critical_section.2.2 heapA guiB 0 rfl

end SmartSocialDistancing
